import Mathlib

/-!
Shallow embedding of the exploration decision engine of the `ai-web-tester`
repository (main source: `smart_exploration_agent.py`, CLI: `smart_demo.py`).

Pure Python helpers are translated into executable Lean functions; the
browser/LLM effects (Playwright calls, `page.evaluate`, exceptions raised by
the driver) are abstracted as explicit oracle parameters describing the
observable outcome of each external call, so every embedded operation is a
total, computable Lean function of its inputs and the oracle.

Machine integers do not occur on the modelled paths; Python strings are
modelled as Lean `String` (a list of characters), and Python's substring
operator `pat in s`, `str.lower` (on the ASCII range exercised by the code's
keyword tables) and `str.join` are given explicit executable definitions.
-/

/-- ASCII lowering of one character; models Python `str.lower` on the ASCII
range, which is the only range the agent's keyword tables exercise. -/
def lowerChar (c : Char) : Char :=
  if 'A' ≤ c && c ≤ 'Z' then Char.ofNat (c.toNat + 32) else c

/-- ASCII lowering of a string (Python `str.lower`). -/
def lowerStr (s : String) : String := ⟨s.data.map lowerChar⟩

/-- Boolean prefix test on character lists. -/
def isPrefixB : List Char → List Char → Bool
  | [], _ => true
  | _ :: _, [] => false
  | a :: p, b :: s => a == b && isPrefixB p s

/-- Boolean substring test on character lists: some suffix of `s` starts
with `p`.  Models Python's `p in s` for strings. -/
def containsB : List Char → List Char → Bool
  | [], p => isPrefixB p []
  | c :: s, p => isPrefixB p (c :: s) || containsB s p

/-- Python `pat in s` on strings. -/
def inStr (pat s : String) : Bool := containsB s.data pat.data

/-- Python `any(keyword in text for keyword in kws)`. -/
def anyKeyword (text : String) (kws : List String) : Bool :=
  kws.any fun k => inStr k text

/-- One form input as collected by the page snapshot
(`smart_exploration_agent.py`, modal-form extraction): name, type,
required flag, placeholder, value. -/
structure FieldDescriptor where
  name : String
  type : String
  placeholder : String := ""
  required : Bool := false
  value : String := ""
deriving DecidableEq

/-- One form button descriptor. -/
structure ButtonDescriptor where
  text : String := ""
  type : String := "button"
deriving DecidableEq

/-- A form descriptor as consumed by `_classify_form_purpose`:
`index/action/method/inputs/buttons/form_text/nearby_text`. -/
structure FormDescriptor where
  index : Nat := 1
  action : String := ""
  method : String := "GET"
  inputs : List FieldDescriptor := []
  buttons : List ButtonDescriptor := []
  form_text : String := ""
  nearby_text : String := ""
deriving DecidableEq

/-- Registration keyword table of `_classify_form_purpose`. -/
def registrationKeywords : List String :=
  ["sign up", "register", "create account", "join", "get started",
   "create your account", "become a member", "start your journey",
   "join us", "create profile", "new account", "registration",
   "create a password", "create password", "birthdate", "birth date",
   "date of birth", "age verification"]

/-- Login keyword table of `_classify_form_purpose`. -/
def loginKeywords : List String :=
  ["sign in", "login", "log in", "enter", "access account",
   "welcome back", "member login", "user login", "enter password"]

/-- The lowercased haystack `form_text + ' ' + nearby_text` used by the
classifier (`text_lower` in the source). -/
def formTextLower (form : FormDescriptor) : String :=
  lowerStr (form.form_text ++ " " ++ form.nearby_text)

/-- Lowercased input types of a form (`input_types` in the source). -/
def inputTypes (form : FormDescriptor) : List String :=
  form.inputs.map fun i => lowerStr i.type

/-- The lowercased space-join of all input names and placeholders
(`all_input_text` in the source). -/
def allInputText (form : FormDescriptor) : String :=
  lowerStr (String.intercalate " "
    ((form.inputs.map fun i => lowerStr i.name) ++
     (form.inputs.map fun i => lowerStr i.placeholder)))

/-- The placeholder override of the classifier: any placeholder containing
"create a password" or "create password" forces `registration`. -/
def hasCreatePw (form : FormDescriptor) : Bool :=
  (form.inputs.map fun i => lowerStr i.placeholder).any fun p =>
    inStr "create a password" p || inStr "create password" p

/-- The `registration_indicators` disjunction of `_classify_form_purpose`,
evaluated when the form has a password field plus an email field. -/
def registrationIndicators (form : FormDescriptor) : Bool :=
  inStr "confirm" (allInputText form) ||
  inStr "first" (allInputText form) ||
  inStr "last" (allInputText form) ||
  inStr "name" (allInputText form) ||
  inStr "phone" (allInputText form) ||
  inStr "birth" (allInputText form) ||
  (inputTypes form).contains "date" ||
  inStr "agree" (formTextLower form) ||
  inStr "terms" (formTextLower form) ||
  decide (form.inputs.length > 2)

/-- The heuristic part of `_classify_form_purpose`
(`smart_exploration_agent.py` lines 214-289), translated branch by branch. -/
def classify_form_purpose (form : FormDescriptor) : String :=
  if anyKeyword (formTextLower form) registrationKeywords then "registration"
  else if anyKeyword (formTextLower form) loginKeywords then "login"
  else if anyKeyword (formTextLower form) ["contact", "message", "email us"] then "contact"
  else if anyKeyword (formTextLower form) ["search"] then "search"
  else if anyKeyword (formTextLower form) ["subscribe", "newsletter"] then "subscription"
  else if hasCreatePw form then "registration"
  else if (inputTypes form).contains "password" &&
          ((inputTypes form).contains "email" || inStr "email" (allInputText form)) then
    if registrationIndicators form then "registration" else "login"
  else if (inputTypes form).contains "email" && !((inputTypes form).contains "password") &&
          anyKeyword (formTextLower form) ["subscribe", "newsletter", "updates"] then
    "subscription"
  else "unknown"

example :
    classify_form_purpose
      { inputs := [{ name := "password", type := "password" },
                   { name := "confirm_password", type := "password" }] } = "unknown" := by
  decide

example :
    classify_form_purpose
      { inputs := [{ name := "email", type := "email" },
                   { name := "password", type := "password" }] } = "login" := by
  decide

example :
    classify_form_purpose
      { inputs := [{ name := "email", type := "email" },
                   { name := "password", type := "password" },
                   { name := "confirm_password", type := "password" }] } = "registration" := by
  decide

example :
    classify_form_purpose { form_text := "Sign up now" } = "registration" := by
  decide

/-- A user persona (`_create_user_personas`); `emailPrefix` embeds the
source's `email_prefix` key. -/
structure Persona where
  name : String
  emailPrefix : String
  first_name : String
  last_name : String
  age : String
  phone : String
  address : String
  city : String
  country : String
  company : String
  behavior : String
deriving DecidableEq

/-- The three fixed personas created by `_create_user_personas`. -/
def user_personas : List Persona :=
  [{ name := "regular_user", emailPrefix := "testuser", first_name := "John",
     last_name := "Doe", age := "25", phone := "+1234567890",
     address := "123 Main St", city := "New York", country := "USA",
     company := "Test Corp", behavior := "cautious" },
   { name := "power_user", emailPrefix := "poweruser", first_name := "Jane",
     last_name := "Smith", age := "35", phone := "+1987654321",
     address := "456 Oak Ave", city := "San Francisco", country := "USA",
     company := "Tech Solutions", behavior := "aggressive" },
   { name := "edge_case_user", emailPrefix := "edgeuser", first_name := "Александр",
     last_name := "O'Connor-Smith", age := "99", phone := "+7-800-555-0199",
     address := "Улица Пушкина, дом Колотушкина", city := "Москва", country := "Россия",
     company := "ООО 'Тест & Ко'", behavior := "boundary_testing" }]

/-- Python `str(n)` for a non-negative integer, via the core decimal
digit renderer. -/
def natDecimal (n : Nat) : String := ⟨Nat.toDigits 10 n⟩

/-- Python `dict.get(key)`: first binding of `key`, or `none`. -/
def dictGet (d : List (String × String)) (k : String) : Option String :=
  (d.find? fun p => p.1 == k).map Prod.snd

/-- The `_generate_test_data` dictionary.  The ambient effects
`int(time.time())` and the six-character random alphanumeric suffix are
passed in explicitly as `timestamp` and `random_suffix`. -/
def generate_test_data (persona : Persona) (timestamp : Nat)
    (random_suffix : String) : List (String × String) :=
  [("email", persona.emailPrefix ++ "." ++ natDecimal timestamp ++ "." ++
             random_suffix ++ "@testmail.com"),
   ("username", persona.emailPrefix ++ "_" ++ random_suffix),
   ("password", "TestPass123!@#"),
   ("password_confirm", "TestPass123!@#"),
   ("first_name", persona.first_name),
   ("last_name", persona.last_name),
   ("name", persona.first_name ++ " " ++ persona.last_name),
   ("full_name", persona.first_name ++ " " ++ persona.last_name),
   ("age", persona.age),
   ("phone", persona.phone),
   ("address", persona.address),
   ("city", persona.city),
   ("country", persona.country),
   ("company", persona.company),
   ("zip", "12345"),
   ("postal_code", "12345"),
   ("state", "NY"),
   ("region", "New York")]

/-- The `_generate_contact_data` dictionary (timestamp passed explicitly). -/
def generate_contact_data (timestamp : Nat) : List (String × String) :=
  [("name", "Test User"),
   ("email", "testcontact." ++ natDecimal timestamp ++ "@example.com"),
   ("subject", "Test inquiry from automated testing"),
   ("message", "This is a test message generated by automated testing system. Please ignore."),
   ("phone", "+1234567890"),
   ("company", "Test Company")]

/-- The fixed search vocabulary of `_generate_search_data`. -/
def searchTerms : List String := ["test", "example", "demo", "sample", "product"]

/-- The `_generate_search_data` dictionary; the three independent
`random.choice` draws are passed as indices into the vocabulary. -/
def generate_search_data (c1 c2 c3 : Fin 5) : List (String × String) :=
  [("search", searchTerms.get c1),
   ("query", searchTerms.get c2),
   ("q", searchTerms.get c3)]

/-- The `_generate_subscription_data` dictionary: the email is derived from
the clock second only, with no random suffix. -/
def generate_subscription_data (timestamp : Nat) : List (String × String) :=
  [("email", "testsub." ++ natDecimal timestamp ++ "@example.com"),
   ("newsletter", "true")]

/-- The lowercased hint string `field_name + ' ' + field_type + ' ' +
placeholder` built by `_match_field_to_data`. -/
def fieldHints (field_name field_type placeholder : String) : String :=
  lowerStr (field_name ++ " " ++ field_type ++ " " ++ placeholder)

/-- The ordered keyword matcher `_match_field_to_data`
(`smart_exploration_agent.py` lines 948-988), translated rule by rule. -/
def match_field_to_data (field_name field_type placeholder : String)
    (test_data : List (String × String)) : Option String :=
  let h := fieldHints field_name field_type placeholder
  if anyKeyword h ["email", "e-mail"] then dictGet test_data "email"
  else if anyKeyword h ["password", "pass"] then
    if inStr "confirm" h || inStr "repeat" h then dictGet test_data "password_confirm"
    else dictGet test_data "password"
  else if anyKeyword h ["username", "user", "login"] then dictGet test_data "username"
  else if anyKeyword h ["first", "fname"] then dictGet test_data "first_name"
  else if anyKeyword h ["last", "lname", "surname"] then dictGet test_data "last_name"
  else if anyKeyword h ["name"] && !(inStr "user" h) then dictGet test_data "name"
  else if anyKeyword h ["phone", "tel"] then dictGet test_data "phone"
  else if anyKeyword h ["address"] then dictGet test_data "address"
  else if anyKeyword h ["city"] then dictGet test_data "city"
  else if anyKeyword h ["country"] then dictGet test_data "country"
  else if anyKeyword h ["company", "organization"] then dictGet test_data "company"
  else if anyKeyword h ["age"] then dictGet test_data "age"
  else if anyKeyword h ["zip", "postal"] then dictGet test_data "zip"
  else if field_type == "checkbox" then none
  else if field_type == "text" && field_name == "" then some "Test input"
  else none

/-- Disjunction of the conditions of every keyword rule that precedes the
checkbox rule in `_match_field_to_data`; when it is false, control reaches
the checkbox test. -/
def someKeywordRuleFires (field_name field_type placeholder : String) : Bool :=
  let h := fieldHints field_name field_type placeholder
  anyKeyword h ["email", "e-mail"] ||
  anyKeyword h ["password", "pass"] ||
  anyKeyword h ["username", "user", "login"] ||
  anyKeyword h ["first", "fname"] ||
  anyKeyword h ["last", "lname", "surname"] ||
  (anyKeyword h ["name"] && !(inStr "user" h)) ||
  anyKeyword h ["phone", "tel"] ||
  anyKeyword h ["address"] ||
  anyKeyword h ["city"] ||
  anyKeyword h ["country"] ||
  anyKeyword h ["company", "organization"] ||
  anyKeyword h ["age"] ||
  anyKeyword h ["zip", "postal"]

example :
    match_field_to_data "email" "checkbox" "" [("email", "x")] = some "x" := by decide

example :
    match_field_to_data "optin" "checkbox" "" [("email", "x")] = none := by decide

example : someKeywordRuleFires "optin" "checkbox" "" = false := by decide

example :
    match_field_to_data "confirm_password" "password" ""
      (generate_test_data (user_personas.get ⟨0, by decide⟩) 7 "ab12cd") =
    some "TestPass123!@#" := by decide

/-- One entry of the `filled_fields` list built by `_fill_form_intelligently`. -/
structure FilledField where
  field : String
  type : String
  valuePreview : String
deriving DecidableEq

/-- The result record of `_fill_form_intelligently`. -/
structure FillResult where
  success : Bool
  filled_fields : List FilledField
  errors : List String
deriving DecidableEq

/-- Outcome of the per-field browser interaction of
`_fill_form_intelligently`: the page query finds no element, or the fill
call completes, or the fill call raises (caught per field). -/
inductive FillOutcome where
  | notFound : FillOutcome
  | filled : FillOutcome
  | fillError (msg : String) : FillOutcome
deriving DecidableEq

/-- The 20-character value preview recorded for a filled field. -/
def preview (v : String) : String :=
  if v.length > 20 then v.take 20 ++ "..." else v

/-- The error message recorded when filling one field raises. -/
def fillErrorMsg (field_name msg : String) : String :=
  "Ошибка заполнения поля " ++ field_name ++ ": " ++ msg

/-- One iteration of the field loop of `_fill_form_intelligently`:
match a value, skip falsy values, then fill and record, accumulating
`(filled_fields, errors)`. -/
def fillStep (test_data : List (String × String)) (env : FieldDescriptor → FillOutcome)
    (acc : List FilledField × List String) (input : FieldDescriptor) :
    List FilledField × List String :=
  let fn := lowerStr input.name
  let ft := lowerStr input.type
  let ph := lowerStr input.placeholder
  match match_field_to_data fn ft ph test_data with
  | none => acc
  | some v =>
    if v = "" then acc
    else
      match env input with
      | FillOutcome.notFound => acc
      | FillOutcome.filled => (acc.1 ++ [⟨fn, ft, preview v⟩], acc.2)
      | FillOutcome.fillError msg => (acc.1, acc.2 ++ [fillErrorMsg fn msg])

/-- `_fill_form_intelligently` (lines 899-946): iterate the field loop over
all inputs and return the `{success, filled_fields, errors}` record. -/
def fill_form_intelligently (form : FormDescriptor) (test_data : List (String × String))
    (env : FieldDescriptor → FillOutcome) : FillResult :=
  let r := form.inputs.foldl (fillStep test_data env) ([], [])
  { success := decide (0 < r.1.length), filled_fields := r.1, errors := r.2 }

/-- The `filled_fields` contribution of one field, in isolation. -/
def fillFilledOpt (test_data : List (String × String)) (env : FieldDescriptor → FillOutcome)
    (input : FieldDescriptor) : Option FilledField :=
  match match_field_to_data (lowerStr input.name) (lowerStr input.type)
      (lowerStr input.placeholder) test_data with
  | none => none
  | some v =>
    if v = "" then none
    else
      match env input with
      | FillOutcome.filled => some ⟨lowerStr input.name, lowerStr input.type, preview v⟩
      | _ => none

/-- The `errors` contribution of one field, in isolation. -/
def fillErrOpt (test_data : List (String × String)) (env : FieldDescriptor → FillOutcome)
    (input : FieldDescriptor) : Option String :=
  match match_field_to_data (lowerStr input.name) (lowerStr input.type)
      (lowerStr input.placeholder) test_data with
  | none => none
  | some v =>
    if v = "" then none
    else
      match env input with
      | FillOutcome.fillError msg => some (fillErrorMsg (lowerStr input.name) msg)
      | _ => none

/-- Click strategy of the three-tier escalation (normal, forced, scripted). -/
inductive Strategy where
  | normal : Strategy
  | forced : Strategy
  | scripted : Strategy
deriving DecidableEq

/-- Observable state of one candidate element during trigger resolution:
visibility before and after the single scroll-into-view retry, the enabled
flag, and whether each kind of click call would return without raising. -/
structure ElementState where
  visible : Bool
  visibleAfterScroll : Bool
  enabled : Bool
  normalClickOk : Bool
  forcedClickOk : Bool
  scriptedClickOk : Bool
deriving DecidableEq

/-- Visibility after the scroll retry of the element loop: an initially
visible element skips the scroll; an invisible one is re-checked once. -/
def effVisible (e : ElementState) : Bool := e.visible || e.visibleAfterScroll

/-- The strategy the element loop picks for one element
(`_search_for_auth_links` lines 409-469 and the identical trigger/switch
loops of `_attempt_registration`). -/
def chooseStrategy (e : ElementState) : Strategy :=
  if effVisible e && e.enabled then Strategy.normal
  else if e.enabled then Strategy.forced
  else Strategy.scripted

/-- Whether the click attempted on this element returns without raising. -/
def clickOk (e : ElementState) : Bool :=
  match chooseStrategy e with
  | Strategy.normal => e.normalClickOk
  | Strategy.forced => e.forcedClickOk
  | Strategy.scripted => e.scriptedClickOk

/-- The inner element loop: try each element with its chosen strategy; a
raising click is caught and the loop continues. -/
def tryElements : List ElementState → Option Strategy
  | [] => none
  | e :: rest => if clickOk e then some (chooseStrategy e) else tryElements rest

/-- The outer selector loop: the elements matched by each candidate
selector are tried in order until some click succeeds. -/
def resolveTrigger : List (List ElementState) → Option Strategy
  | [] => none
  | es :: rest =>
    match tryElements es with
    | some s => some s
    | none => resolveTrigger rest

/-- One security finding, modelled as a record of the optional keys the
source's finding dictionaries carry. -/
structure SecurityFinding where
  type : String
  severity : Option String := none
  headers : Option (List String) := none
  count : Option Nat := none
  error : Option String := none
deriving DecidableEq

/-- The fixed hardening-header checklist of `_security_analysis`. -/
def securityHeadersList : List String :=
  ["x-frame-options", "x-content-type-options", "x-xss-protection",
   "strict-transport-security", "content-security-policy"]

/-- Observable outcome of the two `page.evaluate` calls of
`_security_analysis`: both succeed, the header fetch raises, or the CSRF
scan raises after the header check already ran. -/
inductive SecEnv where
  | ok (headerKeys : List String) (formsWithoutCsrf : Nat) : SecEnv
  | failHeaders (msg : String) : SecEnv
  | failCsrf (headerKeys : List String) (msg : String) : SecEnv
deriving DecidableEq

/-- Checklist headers absent from the response header keys. -/
def missingHeaders (headerKeys : List String) : List String :=
  securityHeadersList.filter fun h => !(headerKeys.contains h)

/-- The findings the header check contributes. -/
def headerFindings (headerKeys : List String) : List SecurityFinding :=
  if (missingHeaders headerKeys).isEmpty then []
  else [{ type := "missing_security_headers", severity := some "medium",
          headers := some (missingHeaders headerKeys) }]

/-- `_security_analysis` (lines 1263-1330): header check, CSRF check, and
the catch-all error finding appended when an evaluate call raises. -/
def security_analysis : SecEnv → List SecurityFinding
  | SecEnv.ok hk n =>
    headerFindings hk ++
    (if n > 0 then
      [{ type := "forms_without_csrf", severity := some "high", count := some n }]
     else [])
  | SecEnv.failHeaders msg =>
    [{ type := "security_analysis_error", error := some msg }]
  | SecEnv.failCsrf hk msg =>
    headerFindings hk ++ [{ type := "security_analysis_error", error := some msg }]

/-- One line typed at the depth prompt of `get_exploration_depth`
(`smart_demo.py` lines 99-115): empty input, input `int()` rejects, or an
integer. -/
inductive InputLine where
  | empty : InputLine
  | notInt (raw : String) : InputLine
  | intVal (n : Int) : InputLine

/-- `get_exploration_depth`: re-prompt until an acceptable depth; empty
input yields the default 3; out-of-range or non-integer input is refused
and the prompt repeats (modelled over the finite list of attempts). -/
def get_exploration_depth : List InputLine → Option Int
  | [] => none
  | InputLine.empty :: _ => some 3
  | InputLine.notInt _ :: rest => get_exploration_depth rest
  | InputLine.intVal n :: rest =>
    if 1 ≤ n ∧ n ≤ 5 then some n else get_exploration_depth rest

/-- The result record of `_submit_form_safely` (success/URL/message flags,
or the error text of a raised submission). -/
structure SubmitResult where
  success : Bool := false
  url_changed : Option Bool := none
  new_url : Option String := none
  has_success_message : Option Bool := none
  has_error_message : Option Bool := none
  response_analysis : Option String := none
  error : Option String := none
deriving DecidableEq

/-- One registration attempt record returned by `_attempt_registration`. -/
structure RegistrationAttempt where
  persona : String
  form_url : String
  trigger_button : Option String := none
  switch_button : Option String := none
  test_data : List (String × String) := []
  fill_result : Option FillResult := none
  submit_result : Option SubmitResult := none
  timestamp : String := ""
deriving DecidableEq

/-- One entry of the discovered-auth-forms collection built by
`_discover_auth_forms`. -/
structure AuthFormRecord where
  form : FormDescriptor
  purpose : String
  confidence : ℚ
  source_url : Option String := none
  trigger_button : Option String := none
  switch_button : Option String := none
deriving DecidableEq

/-- `_discover_auth_forms` (lines 193-212): classify every snapshot form
and keep the auth-purposed ones with confidence 0.8, then extend with the
additional forms found by the browser-driven `_search_for_auth_links`
(passed in as the observable outcome of that stage). -/
def discover_auth_forms (forms : List FormDescriptor)
    (additional : List AuthFormRecord) : List AuthFormRecord :=
  (forms.filterMap fun f =>
    let p := classify_form_purpose f
    if p ∈ (["registration", "login", "signup", "signin"] : List String) then
      some { form := f, purpose := p, confidence := (8 : ℚ) / 10 }
    else none) ++ additional

/-- One entry of the `form_interactions` list built by `_explore_all_forms`. -/
structure FormInteraction where
  form_index : Nat
  purpose : String
  inputs_count : Nat
  fill_result : FillResult
  test_data_used : List (String × String)
deriving DecidableEq

/-- The aggregated exploration report of `deep_explore_website`
(lines 80-145), with the stage payloads the claims never inspect kept as
opaque strings. -/
structure ExplorationReport where
  url : String
  timestamp : String
  exploration_depth : Int
  discovered_pages : List String
  registration_attempts : List RegistrationAttempt
  form_interactions : List FormInteraction
  hidden_functionality : List String
  user_flows : List String
  security_findings : List SecurityFinding
  accessibility_issues : List String
  performance_insights : Option String
  main_page_analysis : String
  auth_forms_discovered : Nat

/-- The report assembly of `deep_explore_website`: the eight stages run in
order and their outcomes are folded into one report.  Browser- and
LLM-driven stage outcomes enter as explicit arguments; the
`auth_forms_discovered` field is set to the length of the
discovered-auth-forms collection, the `accessibility_issues` field is
initialized empty and no stage ever appends to it. -/
def deep_explore_report (url timestampStr : String) (max_depth : Int)
    (main_page_analysis : String)
    (page_forms : List FormDescriptor) (additional_auth : List AuthFormRecord)
    (attempt : Persona → Option RegistrationAttempt)
    (form_interactions : List FormInteraction)
    (hidden user_flows : List String)
    (sec_env : SecEnv) (perf : Option String) : ExplorationReport :=
  let auth_forms := discover_auth_forms page_forms additional_auth
  { url := url
    timestamp := timestampStr
    exploration_depth := max_depth
    discovered_pages := []
    registration_attempts := user_personas.filterMap attempt
    form_interactions := form_interactions
    hidden_functionality := hidden
    user_flows := user_flows
    security_findings := security_analysis sec_env
    accessibility_issues := []
    performance_insights := perf
    main_page_analysis := main_page_analysis
    auth_forms_discovered := auth_forms.length }

/-- C4: for every exploration run, including runs that discover zero auth
forms, the report field `auth_forms_discovered` equals the length of the
discovered-auth-forms collection, derived from the collection at assembly
time; with no snapshot forms and no additionally discovered forms the
count is 0. -/
theorem c4_auth_forms_count (url ts : String) (d : Int) (mpa : String)
    (pf : List FormDescriptor) (aa : List AuthFormRecord)
    (att : Persona → Option RegistrationAttempt) (fi : List FormInteraction)
    (hid uf : List String) (se : SecEnv) (perf : Option String) :
    (deep_explore_report url ts d mpa pf aa att fi hid uf se perf).auth_forms_discovered =
      (discover_auth_forms pf aa).length ∧
    (deep_explore_report url ts d mpa [] [] att fi hid uf se perf).auth_forms_discovered = 0 := by
  exact ⟨rfl, by simp [deep_explore_report, discover_auth_forms]⟩

/-- C10: in every report produced by a run, the `accessibility_issues`
field equals the empty list: it is initialized empty and no stage of the
run ever appends to it. -/
theorem c10_accessibility_issues_empty (url ts : String) (d : Int) (mpa : String)
    (pf : List FormDescriptor) (aa : List AuthFormRecord)
    (att : Persona → Option RegistrationAttempt) (fi : List FormInteraction)
    (hid uf : List String) (se : SecEnv) (perf : Option String) :
    (deep_explore_report url ts d mpa pf aa att fi hid uf se perf).accessibility_issues = [] :=
  rfl

/-- C7: every depth the CLI prompt accepts lies in 1..5 (so a run only ever
starts with such a depth); an in-range integer attempt is accepted as is,
and an out-of-range integer attempt is rejected and the prompt moves on to
the next attempt. -/
theorem c7_depth_range :
    (∀ lines d, get_exploration_depth lines = some d → 1 ≤ d ∧ d ≤ 5) ∧
    (∀ (n : Int) rest, 1 ≤ n → n ≤ 5 →
      get_exploration_depth (InputLine.intVal n :: rest) = some n) ∧
    (∀ (n : Int) rest, ¬(1 ≤ n ∧ n ≤ 5) →
      get_exploration_depth (InputLine.intVal n :: rest) = get_exploration_depth rest) := by
  refine ⟨?_, ?_, ?_⟩
  · intro lines
    induction lines with
    | nil => intro d h; simp [get_exploration_depth] at h
    | cons l rest ih =>
      intro d h
      cases l with
      | empty =>
        simp [get_exploration_depth] at h
        omega
      | notInt s => exact ih d (by simpa [get_exploration_depth] using h)
      | intVal n =>
        by_cases hc : 1 ≤ n ∧ n ≤ 5
        · simp [get_exploration_depth, hc] at h
          omega
        · exact ih d (by simpa [get_exploration_depth, hc] using h)
  · intro n rest h1 h2
    simp [get_exploration_depth, h1, h2]
  · intro n rest h
    simp [get_exploration_depth, h]

/-- Witness for C7: depth 3 is accepted and lies in range; depth 7 is
rejected and the prompt falls through to the remaining attempts. -/
theorem c7_depth_range_witness :
    (1 ≤ (3 : Int) ∧ (3 : Int) ≤ 5) ∧
    get_exploration_depth [InputLine.intVal 3] = some 3 ∧
    get_exploration_depth [InputLine.intVal 7] = get_exploration_depth [] :=
  ⟨c7_depth_range.1 [InputLine.intVal 3] 3 (by decide),
   c7_depth_range.2.1 3 [] (by decide) (by decide),
   c7_depth_range.2.2 7 [] (by decide)⟩

/-- C6: for a form reaching the password-plus-email branch (none of the
earlier keyword branches or the create-password placeholder override
fired, and the field types contain a password field together with an
email-typed-or-named field), the classifier returns `registration` exactly
when some registration indicator holds and `login` otherwise; in
particular more than 2 fields force `registration`, and an indicator-free
form (which then has at most 2 fields) yields `login`. -/
theorem c6_password_email_branch (form : FormDescriptor)
    (h1 : anyKeyword (formTextLower form) registrationKeywords = false)
    (h2 : anyKeyword (formTextLower form) loginKeywords = false)
    (h3 : anyKeyword (formTextLower form) ["contact", "message", "email us"] = false)
    (h4 : anyKeyword (formTextLower form) ["search"] = false)
    (h5 : anyKeyword (formTextLower form) ["subscribe", "newsletter"] = false)
    (h6 : hasCreatePw form = false)
    (h7 : ((inputTypes form).contains "password" &&
           ((inputTypes form).contains "email" || inStr "email" (allInputText form))) = true) :
    classify_form_purpose form =
      (if registrationIndicators form then "registration" else "login") ∧
    (form.inputs.length > 2 → classify_form_purpose form = "registration") ∧
    (registrationIndicators form = false → classify_form_purpose form = "login") := by
  have h7' := h7
  simp at h7'
  have main : classify_form_purpose form =
      (if registrationIndicators form then "registration" else "login") := by
    unfold classify_form_purpose
    simp [h1, h2, h3, h4, h5, h6, h7'.1, h7'.2]
  refine ⟨main, ?_, ?_⟩
  · intro hl
    have hi : registrationIndicators form = true := by
      simp [registrationIndicators, hl]
    rw [main, hi]
    simp
  · intro h0
    rw [main, h0]
    simp

/-- Witness for C6: a bare email-plus-password form with empty surrounding
text and exactly two fields satisfies every hypothesis, has no
registration indicator, and classifies as `login`. -/
theorem c6_password_email_branch_witness :
    classify_form_purpose
      { inputs := [{ name := "email", type := "email" },
                   { name := "password", type := "password" }] } = "login" :=
  (c6_password_email_branch
    { inputs := [{ name := "email", type := "email" },
                 { name := "password", type := "password" }] }
    (by decide) (by decide) (by decide) (by decide) (by decide) (by decide)
    (by decide)).2.2 (by decide)

/-- C1 as stated is false on the code: a form holding a password-typed
field and a distinct field whose name contains "confirm" (or "repeat")
need not classify as `registration` — with no email-typed-or-named field
the classifier falls through every branch and returns `unknown`. -/
theorem c1_counterexample :
    ¬(∀ form : FormDescriptor,
        (∃ f ∈ form.inputs, ∃ g ∈ form.inputs, f ≠ g ∧
          lowerStr f.type = "password" ∧
          (inStr "confirm" (lowerStr g.name) = true ∨
           inStr "repeat" (lowerStr g.name) = true)) →
        classify_form_purpose form = "registration") := by
  intro h
  have hc := h
    { inputs := [{ name := "password", type := "password" },
                 { name := "confirm_password", type := "password" }] }
    ⟨{ name := "password", type := "password" }, by simp,
     { name := "confirm_password", type := "password" }, by simp,
     by decide, by decide, Or.inl (by decide)⟩
  exact absurd hc (by decide)

/-- C1 amended: if none of the earlier classifier branches fire, the form
has a password-typed field together with an email-typed-or-named field,
and the combined field name/placeholder text contains "confirm", then the
classifier returns `registration`. -/
theorem c1_amended_confirm_registration (form : FormDescriptor)
    (h1 : anyKeyword (formTextLower form) registrationKeywords = false)
    (h2 : anyKeyword (formTextLower form) loginKeywords = false)
    (h3 : anyKeyword (formTextLower form) ["contact", "message", "email us"] = false)
    (h4 : anyKeyword (formTextLower form) ["search"] = false)
    (h5 : anyKeyword (formTextLower form) ["subscribe", "newsletter"] = false)
    (h6 : hasCreatePw form = false)
    (h7 : ((inputTypes form).contains "password" &&
           ((inputTypes form).contains "email" || inStr "email" (allInputText form))) = true)
    (h8 : inStr "confirm" (allInputText form) = true) :
    classify_form_purpose form = "registration" := by
  have hi : registrationIndicators form = true := by
    simp [registrationIndicators, h8]
  have h7' := h7
  simp at h7'
  unfold classify_form_purpose
  simp [h1, h2, h3, h4, h5, h6, h7'.1, h7'.2, hi]

/-- Witness for amended C1: an email, password and confirm-password form
with empty surrounding text satisfies every hypothesis and classifies as
`registration`. -/
theorem c1_amended_confirm_registration_witness :
    classify_form_purpose
      { inputs := [{ name := "email", type := "email" },
                   { name := "password", type := "password" },
                   { name := "confirm_password", type := "password" }] } = "registration" :=
  c1_amended_confirm_registration
    { inputs := [{ name := "email", type := "email" },
                 { name := "password", type := "password" },
                 { name := "confirm_password", type := "password" }] }
    (by decide) (by decide) (by decide) (by decide) (by decide) (by decide)
    (by decide) (by decide)

/-- C3 as stated is false on the code: the checkbox rule of
`_match_field_to_data` sits below the keyword rules, so a checkbox-typed
field whose name matches a keyword rule (here a checkbox named "email")
receives that rule's value instead of `none`. -/
theorem c3_counterexample :
    ¬(∀ (field_name placeholder : String) (test_data : List (String × String)),
        match_field_to_data field_name "checkbox" placeholder test_data = none) := by
  intro h
  exact absurd (h "email" "" [("email", "x")]) (by decide)

/-- C3 amended: a checkbox-typed field yields `none` provided none of the
keyword rules preceding the checkbox rule matches its hint string; keyword
rules take priority over the checkbox rule. -/
theorem c3_checkbox_none (field_name placeholder : String)
    (test_data : List (String × String))
    (h : someKeywordRuleFires field_name "checkbox" placeholder = false) :
    match_field_to_data field_name "checkbox" placeholder test_data = none := by
  simp only [someKeywordRuleFires, Bool.or_eq_false_iff] at h
  obtain ⟨⟨⟨⟨⟨⟨⟨⟨⟨⟨⟨⟨h1, h2⟩, h3⟩, h4⟩, h5⟩, h6⟩, h7⟩, h8⟩, h9⟩, h10⟩, h11⟩, h12⟩, h13⟩ := h
  simp only [match_field_to_data, h1, h2, h3, h4, h5, h6, h7, h8, h9, h10, h11, h12, h13]
  simp

/-- Witness for amended C3: a checkbox named "optin" matches no keyword
rule and yields `none`. -/
theorem c3_checkbox_none_witness :
    match_field_to_data "optin" "checkbox" "" [("email", "x")] = none :=
  c3_checkbox_none "optin" "" [("email", "x")] (by decide)

/-- The element loop returns the chosen strategy of the first element
whose click succeeds. -/
theorem tryElements_eq_find (es : List ElementState) :
    tryElements es = (es.find? clickOk).map chooseStrategy := by
  induction es with
  | nil => rfl
  | cons e rest ih =>
    by_cases h : clickOk e = true
    · simp [tryElements, List.find?_cons, h]
    · simp only [Bool.not_eq_true] at h
      simp [tryElements, List.find?_cons, h, ih]

/-- C5: the click strategy is the exact three-tier escalation — an element
visible (possibly only after the single scroll retry) and enabled gets a
normal click, an enabled-but-invisible element a forced click, a disabled
element a scripted click; resolution returns the strategy of the first
element (in selector order, then element order) whose click succeeds, and
fails exactly when every element of every candidate selector fails. -/
theorem c5_three_tier_escalation (e : ElementState) (selss : List (List ElementState)) :
    (effVisible e = true → e.enabled = true → chooseStrategy e = Strategy.normal) ∧
    (effVisible e = false → e.enabled = true → chooseStrategy e = Strategy.forced) ∧
    (e.enabled = false → chooseStrategy e = Strategy.scripted) ∧
    resolveTrigger selss = (selss.flatten.find? clickOk).map chooseStrategy ∧
    (resolveTrigger selss = none ↔ ∀ es ∈ selss, ∀ x ∈ es, clickOk x = false) := by
  have hresolve : ∀ ls : List (List ElementState),
      resolveTrigger ls = (ls.flatten.find? clickOk).map chooseStrategy := by
    intro ls
    induction ls with
    | nil => rfl
    | cons es rest ih =>
      show (match tryElements es with
            | some s => some s
            | none => resolveTrigger rest) = _
      rw [tryElements_eq_find, List.flatten_cons, List.find?_append]
      cases hfe : es.find? clickOk with
      | none => simpa [hfe, Option.orElse] using ih
      | some x => simp [hfe, Option.orElse]
  refine ⟨?_, ?_, ?_, hresolve selss, ?_⟩
  · intro hv he
    simp [chooseStrategy, hv, he]
  · intro hv he
    simp [chooseStrategy, hv, he]
  · intro he
    simp [chooseStrategy, he]
  · rw [hresolve selss]
    constructor
    · intro h es hes x hx
      have : selss.flatten.find? clickOk = none := by
        cases hfe : selss.flatten.find? clickOk with
        | none => rfl
        | some y => rw [hfe] at h; simp at h
      have := List.find?_eq_none.mp this x (List.mem_flatten.mpr ⟨es, hes, hx⟩)
      simpa using this
    · intro h
      have : selss.flatten.find? clickOk = none := by
        apply List.find?_eq_none.mpr
        intro x hx
        obtain ⟨es, hes, hxe⟩ := List.mem_flatten.mp hx
        simp [h es hes x hxe]
      simp [this]

/-- Witness for C5: an element visible from the start gets a normal click;
one that stays invisible but enabled gets a forced click; a disabled one a
scripted click; a single always-failing element makes resolution fail. -/
theorem c5_three_tier_escalation_witness :
    chooseStrategy ⟨true, false, true, true, true, true⟩ = Strategy.normal ∧
    chooseStrategy ⟨false, false, true, true, true, true⟩ = Strategy.forced ∧
    chooseStrategy ⟨false, false, false, true, true, true⟩ = Strategy.scripted ∧
    resolveTrigger [[⟨false, false, false, false, false, false⟩]] = none :=
  ⟨(c5_three_tier_escalation ⟨true, false, true, true, true, true⟩ []).1 rfl rfl,
   (c5_three_tier_escalation ⟨false, false, true, true, true, true⟩ []).2.1 rfl rfl,
   (c5_three_tier_escalation ⟨false, false, false, true, true, true⟩ []).2.2.1 rfl,
   (c5_three_tier_escalation ⟨false, false, false, false, false, false⟩
     [[⟨false, false, false, false, false, false⟩]]).2.2.2.2.mpr (by decide)⟩

/-- The field loop of `_fill_form_intelligently` acts on each field
independently: folding it equals appending each field's isolated
`filled_fields` and `errors` contributions to the accumulator. -/
theorem fill_foldl_eq (data : List (String × String)) (env : FieldDescriptor → FillOutcome)
    (xs : List FieldDescriptor) :
    ∀ acc : List FilledField × List String,
      xs.foldl (fillStep data env) acc =
        (acc.1 ++ xs.filterMap (fillFilledOpt data env),
         acc.2 ++ xs.filterMap (fillErrOpt data env)) := by
  induction xs with
  | nil => intro acc; simp
  | cons x xs ih =>
    intro acc
    rw [List.foldl_cons, ih]
    simp only [List.filterMap_cons]
    cases hm : match_field_to_data (lowerStr x.name) (lowerStr x.type)
        (lowerStr x.placeholder) data with
    | none => simp [fillStep, fillFilledOpt, fillErrOpt, hm]
    | some v =>
      by_cases hv : v = ""
      · simp [fillStep, fillFilledOpt, fillErrOpt, hm, hv]
      · cases he : env x with
        | notFound => simp [fillStep, fillFilledOpt, fillErrOpt, hm, hv, he]
        | filled => simp [fillStep, fillFilledOpt, fillErrOpt, hm, hv, he]
        | fillError msg => simp [fillStep, fillFilledOpt, fillErrOpt, hm, hv, he]

/-- C9: form filling always returns a `{success, filled_fields, errors}`
record whose lists collect each field's isolated contribution — a failing
field adds its error message and neither stops nor perturbs the filling of
the remaining fields, as the contributions of a split field list simply
concatenate. -/
theorem c9_fill_isolated (form : FormDescriptor) (xs ys : List FieldDescriptor)
    (idx : Nat) (act mth ftx ntx : String) (bs : List ButtonDescriptor)
    (data : List (String × String)) (env : FieldDescriptor → FillOutcome) :
    fill_form_intelligently form data env =
      { success := decide (0 < (form.inputs.filterMap (fillFilledOpt data env)).length),
        filled_fields := form.inputs.filterMap (fillFilledOpt data env),
        errors := form.inputs.filterMap (fillErrOpt data env) } ∧
    (fill_form_intelligently ⟨idx, act, mth, xs ++ ys, bs, ftx, ntx⟩ data env).errors =
      (fill_form_intelligently ⟨idx, act, mth, xs, bs, ftx, ntx⟩ data env).errors ++
      (fill_form_intelligently ⟨idx, act, mth, ys, bs, ftx, ntx⟩ data env).errors ∧
    (fill_form_intelligently ⟨idx, act, mth, xs ++ ys, bs, ftx, ntx⟩ data env).filled_fields =
      (fill_form_intelligently ⟨idx, act, mth, xs, bs, ftx, ntx⟩ data env).filled_fields ++
      (fill_form_intelligently ⟨idx, act, mth, ys, bs, ftx, ntx⟩ data env).filled_fields := by
  refine ⟨?_, ?_, ?_⟩
  · simp [fill_form_intelligently, fill_foldl_eq]
  · simp [fill_form_intelligently, fill_foldl_eq]
  · simp [fill_form_intelligently, fill_foldl_eq]

/-- C2 as stated is false on the code: the clock used by the generators is
second-granular and not strictly monotonic across calls, and the
subscription generator appends no random suffix at all, so two successive
subscription-data calls within the same clock second produce equal
emails. -/
theorem c2_counterexample :
    ¬(∀ t1 t2 : Nat, t1 ≤ t2 →
        dictGet (generate_subscription_data t1) "email" ≠
        dictGet (generate_subscription_data t2) "email") :=
  fun h => h 1700000000 1700000000 (Nat.le_refl _) rfl

/-- C2 amended: the registration-data generator derives the email from the
clock second and the six-character random suffix, so two calls whose
suffixes differ produce distinct emails (for any clock values and the same
persona); uniqueness holds only up to a repeated (second, suffix) pair,
and the subscription email, which carries no suffix, repeats within a
second. -/
theorem c2_distinct_suffix_email (p : Persona) (t1 t2 : Nat) (s1 s2 : String)
    (h1 : s1.length = 6) (h2 : s2.length = 6) (hne : s1 ≠ s2) :
    dictGet (generate_test_data p t1 s1) "email" ≠
    dictGet (generate_test_data p t2 s2) "email" := by
  intro h
  have e1 : dictGet (generate_test_data p t1 s1) "email" =
      some (p.emailPrefix ++ "." ++ natDecimal t1 ++ "." ++ s1 ++ "@testmail.com") := rfl
  have e2 : dictGet (generate_test_data p t2 s2) "email" =
      some (p.emailPrefix ++ "." ++ natDecimal t2 ++ "." ++ s2 ++ "@testmail.com") := rfl
  rw [e1, e2] at h
  have he := Option.some.inj h
  apply hne
  have hd := congrArg String.data he
  simp only [String.data_append] at hd
  have hlen : s1.data.length = s2.data.length := h1.trans h2.symm
  have step1 := List.append_inj' hd rfl
  have step2 := List.append_inj' step1.1 hlen
  exact String.ext step2.2

/-- Witness for amended C2: within the same clock second, two different
six-character suffixes give different registration emails. -/
theorem c2_distinct_suffix_email_witness :
    dictGet (generate_test_data
      { name := "regular_user", emailPrefix := "testuser", first_name := "John",
        last_name := "Doe", age := "25", phone := "+1234567890",
        address := "123 Main St", city := "New York", country := "USA",
        company := "Test Corp", behavior := "cautious" } 1700000000 "ab12cd") "email" ≠
    dictGet (generate_test_data
      { name := "regular_user", emailPrefix := "testuser", first_name := "John",
        last_name := "Doe", age := "25", phone := "+1234567890",
        address := "123 Main St", city := "New York", country := "USA",
        company := "Test Corp", behavior := "cautious" } 1700000000 "ab12ce") "email" :=
  c2_distinct_suffix_email _ 1700000000 1700000000 "ab12cd" "ab12ce"
    rfl rfl (by decide)

/-- C8 as stated is false on the code: when an evaluate call raises, the
catch-all finding `{type: security_analysis_error, error: ...}` is
appended without any `severity` key. -/
theorem c8_counterexample :
    ¬(∀ (env : SecEnv), ∀ f ∈ security_analysis env,
        f.type ∈ ["missing_security_headers", "forms_without_csrf",
                  "security_analysis_error"] ∧
        f.severity.isSome = true) := by
  intro h
  have hs := (h (SecEnv.failHeaders "evaluate raised")
    { type := "security_analysis_error", error := some "evaluate raised" }
    (by simp [security_analysis])).2
  simp at hs

/-- C8 amended: every security finding's `type` is drawn from the closed
set `{missing_security_headers, forms_without_csrf,
security_analysis_error}`, and every finding other than the catch-all
error finding carries a `severity` field. -/
theorem c8_finding_shape (env : SecEnv) (f : SecurityFinding)
    (hf : f ∈ security_analysis env) :
    f.type ∈ ["missing_security_headers", "forms_without_csrf",
              "security_analysis_error"] ∧
    (f.type ≠ "security_analysis_error" → f.severity.isSome = true) := by
  have hhead : ∀ hk, f ∈ headerFindings hk →
      f.type ∈ ["missing_security_headers", "forms_without_csrf",
                "security_analysis_error"] ∧
      (f.type ≠ "security_analysis_error" → f.severity.isSome = true) := by
    intro hk hmem
    unfold headerFindings at hmem
    split at hmem
    · simp at hmem
    · simp at hmem
      subst hmem
      exact ⟨by simp, fun _ => rfl⟩
  cases env with
  | ok hk n =>
    simp only [security_analysis] at hf
    rcases List.mem_append.mp hf with hmem | hmem
    · exact hhead hk hmem
    · split at hmem
      · simp at hmem
        subst hmem
        exact ⟨by simp, fun _ => rfl⟩
      · simp at hmem
  | failHeaders msg =>
    simp only [security_analysis, List.mem_singleton] at hf
    subst hf
    exact ⟨by simp, fun hne => absurd rfl hne⟩
  | failCsrf hk msg =>
    simp only [security_analysis] at hf
    rcases List.mem_append.mp hf with hmem | hmem
    · exact hhead hk hmem
    · simp at hmem
      subst hmem
      exact ⟨by simp, fun hne => absurd rfl hne⟩

/-- Witness for amended C8: on a page whose response carries every
checklist header and one CSRF-less POST form, the produced finding has the
closed-set type `forms_without_csrf` and carries a severity. -/
theorem c8_finding_shape_witness :
    ({ type := "forms_without_csrf", severity := some "high",
       count := some 1 } : SecurityFinding).type ∈
      ["missing_security_headers", "forms_without_csrf",
       "security_analysis_error"] ∧
    (({ type := "forms_without_csrf", severity := some "high",
        count := some 1 } : SecurityFinding).type ≠ "security_analysis_error" →
      ({ type := "forms_without_csrf", severity := some "high",
         count := some 1 } : SecurityFinding).severity.isSome = true) :=
  c8_finding_shape
    (SecEnv.ok ["x-frame-options", "x-content-type-options", "x-xss-protection",
                "strict-transport-security", "content-security-policy"] 1) _
    (by decide)
